import Mathlib

/-!
Shallow embedding of the Unmonitarr synchronization engine
(src/sonarr_client.py, src/radarr_client.py, src/webhook_handler.py,
src/main.py, src/models.py), together with proofs about the claims of
the specification.

Python strings are modelled as lists of Unicode code points (`List Nat`);
the ASCII fragment of `str.lower` and of the regex class `\w` is modelled
explicitly, which is the fragment exercised by the title data handled by
the program.
-/

namespace Unmonitarr

/-- A Python string, as a list of Unicode code points. -/
abbrev PyStr := List Nat

/-- Code points of a Lean string literal, for concrete inputs. -/
def pyOfString (s : String) : PyStr := s.data.map Char.toNat

/-- ASCII model of Python `str.lower` on one character. -/
def lowerChar (c : Nat) : Nat := if 65 ≤ c ∧ c ≤ 90 then c + 32 else c

/-- Whitespace characters recognized by Python `str.split()` and `\s`. -/
def isSpaceChar (c : Nat) : Bool :=
  c == 32 || c == 9 || c == 10 || c == 13 || c == 11 || c == 12

/-- ASCII model of the regex class `\w`: alphanumerics and underscore. -/
def isWordChar (c : Nat) : Bool :=
  (48 ≤ c && c ≤ 57) || (65 ≤ c && c ≤ 90) || (97 ≤ c && c ≤ 122) || c == 95

/-- Characters kept by `re.sub(r'[^\w\s]', '', cleaned)`. -/
def keepChar (c : Nat) : Bool := isWordChar c || isSpaceChar c

/-- Python `s.split()`: split on whitespace runs, dropping empty fields. -/
def splitWs (s : PyStr) : List PyStr :=
  (s.splitOnP isSpaceChar).filter (fun w => !w.isEmpty)

/-- Python `' '.join(ws)`. -/
def joinSpace : List PyStr → PyStr
  | [] => []
  | [w] => w
  | w :: ws => w ++ 32 :: joinSpace ws

/-- The article words dropped by `_clean_title` (sonarr_client.py:154). -/
def common_words : List PyStr := [pyOfString "the", pyOfString "a", pyOfString "an"]

/-- The filter condition `w not in common_words` of sonarr_client.py:156. -/
def notArticle (w : PyStr) : Bool := decide (w ∉ common_words)

/-- SonarrClient._clean_title (sonarr_client.py:138-158): lower-case,
strip punctuation, collapse whitespace, drop article words; if every word
is an article the collapsed string is returned instead. -/
def clean_title (title : PyStr) : PyStr :=
  if title = [] then []
  else
    let cleaned := title.map lowerChar
    let cleaned := cleaned.filter keepChar
    let cleaned := joinSpace (splitWs cleaned)
    let words := splitWs cleaned
    let cleaned_words := words.filter notArticle
    if cleaned_words ≠ [] then joinSpace cleaned_words else cleaned

/-- The word list of the lower-cased, punctuation-stripped title: the
words `_clean_title` filters articles from. -/
def clean_words (title : PyStr) : List PyStr :=
  splitWs ((title.map lowerChar).filter keepChar)

/-! Identity resolution for series (sonarr_client.py) and movies
(radarr_client.py). Entities carry the fields the matching code reads;
remote lookup results (the `/series/lookup` and `/movie/lookup`
endpoints) are passed in as an environment parameter. -/

/-- A Sonarr series record, with the fields read by the matcher. -/
structure Series where
  id : Nat
  title : PyStr
  year : Option Int
  tvdbId : Option Nat
  imdbId : Option String
  alternateTitles : List PyStr
deriving DecidableEq, Repr

/-- A Radarr movie record, with the fields read by the matcher. -/
structure Movie where
  id : Nat
  title : PyStr
  year : Option Int
  tmdbId : Option Nat
  imdbId : Option String
  originalTitle : PyStr
  alternativeTitles : List PyStr
deriving DecidableEq, Repr

/-- Python truthiness of an optional string (absent or empty is falsy). -/
def truthyStr : Option String → Bool
  | none => false
  | some s => !(s == "")

/-- Python truthiness of an optional integer (absent or zero is falsy). -/
def truthyInt : Option Int → Bool
  | none => false
  | some n => !(n == 0)

/-- sonarr_client.py:360: `str(series.get("tvdbId", "")) if series.get("tvdbId") else None`. -/
def seriesTvdbStr (s : Series) : Option String :=
  match s.tvdbId with
  | some n => if n = 0 then none else some (toString n)
  | none => none

/-- sonarr_client.py:368: `series.get("imdbId", "") if series.get("imdbId") else None`. -/
def seriesImdbStr (s : Series) : Option String :=
  match s.imdbId with
  | some i => if i = "" then none else some i
  | none => none

/-- sonarr_client.py:361: `series_tvdb and str(tvdb_id) == series_tvdb`. -/
def tvdbMatchesB (q : String) (s : Series) : Bool :=
  match seriesTvdbStr s with
  | some st => q == st
  | none => false

/-- sonarr_client.py:369: `series_imdb and str(imdb_id) == series_imdb`. -/
def imdbMatchesB (q : String) (s : Series) : Bool :=
  match seriesImdbStr s with
  | some si => q == si
  | none => false

/-- Whether a supplied external ID (TVDB or IMDB, truthy) matches the series:
the condition of the two PRIORITY 1 loops of sonarr_client.py:357-371. -/
def seriesIdMatchB (tvdb_id imdb_id : Option String) (s : Series) : Bool :=
  (match tvdb_id with
   | some t => !(t == "") && tvdbMatchesB t s
   | none => false) ||
  (match imdb_id with
   | some i => !(i == "") && imdbMatchesB i s
   | none => false)

/-- Substring test at the head of the haystack (used by `substrOf`). -/
def leadMatch : PyStr → PyStr → Bool
  | [], _ => true
  | _ :: _, [] => false
  | a :: as, b :: bs => a == b && leadMatch as bs

/-- Python `needle in hay` for strings: contiguous substring test. -/
def substrOf (needle : PyStr) : PyStr → Bool
  | [] => leadMatch needle []
  | c :: rest => leadMatch needle (c :: rest) || substrOf needle rest

/-- SonarrClient.search_series_by_title (sonarr_client.py:87-136):
exact cleaned-title match, then bidirectional containment (length > 3),
then alternate-title match; each strategy short-circuits. -/
def search_series_by_title (seriesList : List Series) (title : PyStr) : List Series :=
  if seriesList = [] then []
  else
    let title_clean := clean_title title
    let exact := seriesList.filter (fun s => clean_title s.title == title_clean)
    if exact ≠ [] then exact
    else
      let contains := seriesList.filter (fun s =>
        let sc := clean_title s.title
        (substrOf title_clean sc || substrOf sc title_clean)
          && decide (title_clean.length > 3))
      if contains ≠ [] then contains
      else seriesList.filter (fun s => s.alternateTitles.any (fun a =>
        let ac := clean_title a
        title_clean == ac || (substrOf title_clean ac && decide (title_clean.length > 3))))

/-- Year filter of sonarr_client.py:394-398 / radarr_client.py:182-186:
`if year and len(matches) > 1`, keep entities whose truthy year is within
±1, falling back to the unfiltered list when none qualify. -/
def yearFilterSeries (year : Option Int) (titleMatches : List Series) : List Series :=
  match year with
  | some y =>
    if y ≠ 0 ∧ titleMatches.length > 1 then
      let ym := titleMatches.filter (fun s =>
        match s.year with
        | some sy => !(sy == 0) && decide ((sy - y).natAbs ≤ 1)
        | none => false)
      if ym ≠ [] then ym else titleMatches
    else titleMatches
  | none => titleMatches

/-- tvdbId rendered by `str(...)` with no truthiness guard
(sonarr_client.py:422): Python prints `None` for an absent value. -/
def seriesTvdbRaw (s : Series) : String :=
  match s.tvdbId with
  | some n => toString n
  | none => "None"

/-- The external-lookup fallback of sonarr_client.py:416-429: scan lookup
results in order; for each with a truthy tvdbId, return the first existing
series whose raw tvdbId string equals it; otherwise none (a lookup-only hit
is reported as not-in-Sonarr). -/
def seriesLookupScan (seriesList : List Series) : List Series → Option Series
  | [] => none
  | l :: rest =>
    match l.tvdbId with
    | some n =>
      if n ≠ 0 then
        match seriesList.find? (fun s => seriesTvdbRaw s == toString n) with
        | some s => some s
        | none => seriesLookupScan seriesList rest
      else seriesLookupScan seriesList rest
    | none => seriesLookupScan seriesList rest

/-- Year filter applied to lookup results (sonarr_client.py:410-414):
`if year:` with no length condition. -/
def yearFilterLookupSeries (year : Option Int) (lookupResults : List Series) : List Series :=
  match year with
  | some y =>
    if y ≠ 0 then
      let ym := lookupResults.filter (fun s =>
        match s.year with
        | some sy => !(sy == 0) && decide ((sy - y).natAbs ≤ 1)
        | none => false)
      if ym ≠ [] then ym else lookupResults
    else lookupResults
  | none => lookupResults

/-- Title tiers of find_series_by_jellyfin_metadata (sonarr_client.py:387-432):
PRIORITY 2 title match over existing series, then the external-lookup
fallback. The Bool records that title matching was consulted. -/
def seriesTitlePhase (seriesList : List Series) (title : PyStr) (year : Option Int)
    (lookupResults : List Series) : Option Series × Bool :=
  let titleMatches := search_series_by_title seriesList title
  if titleMatches ≠ [] then
    ((yearFilterSeries year titleMatches).head?, true)
  else
    (seriesLookupScan seriesList (yearFilterLookupSeries year lookupResults), true)

/-- The TVDB scan of sonarr_client.py:358-363: first series whose tvdbId
matches the truthy supplied id. -/
def seriesTier1Tvdb (seriesList : List Series) (tvdb_id : Option String) : Option Series :=
  match tvdb_id with
  | some t => if t = "" then none else seriesList.find? (tvdbMatchesB t)
  | none => none

/-- The IMDB scan of sonarr_client.py:366-371: first series whose imdbId
matches the truthy supplied id. -/
def seriesTier1Imdb (seriesList : List Series) (imdb_id : Option String) : Option Series :=
  match imdb_id with
  | some i => if i = "" then none else seriesList.find? (imdbMatchesB i)
  | none => none

/-- SonarrClient.find_series_by_jellyfin_metadata (sonarr_client.py:341-432).
PRIORITY 1: when a truthy external ID is supplied, scan all series for a
TVDB match, then for an IMDB match; only if both scans miss fall through to
title matching. The Bool records whether title matching was consulted. -/
def find_series_by_jellyfin_metadata (seriesList : List Series) (title : PyStr)
    (year : Option Int) (tvdb_id imdb_id : Option String)
    (lookupResults : List Series) : Option Series × Bool :=
  if truthyStr tvdb_id || truthyStr imdb_id then
    match seriesTier1Tvdb seriesList tvdb_id with
    | some s => (some s, false)
    | none =>
      match seriesTier1Imdb seriesList imdb_id with
      | some s => (some s, false)
      | none => seriesTitlePhase seriesList title year lookupResults
  else seriesTitlePhase seriesList title year lookupResults

/-- radarr_client.py:158: `str(movie.get("tmdbId", "")) if movie.get("tmdbId") else None`. -/
def movieTmdbStr (m : Movie) : Option String :=
  match m.tmdbId with
  | some n => if n = 0 then none else some (toString n)
  | none => none

/-- radarr_client.py:159: `movie.get("imdbId", "") if movie.get("imdbId") else None`. -/
def movieImdbStr (m : Movie) : Option String :=
  match m.imdbId with
  | some i => if i = "" then none else some i
  | none => none

/-- radarr_client.py:161: `tmdb_id and movie_tmdb and str(tmdb_id) == movie_tmdb`. -/
def movieTmdbMatchB (tmdb_id : Option String) (m : Movie) : Bool :=
  match tmdb_id, movieTmdbStr m with
  | some t, some mt => !(t == "") && t == mt
  | _, _ => false

/-- radarr_client.py:164: `imdb_id and movie_imdb and str(imdb_id) == movie_imdb`. -/
def movieImdbMatchB (imdb_id : Option String) (m : Movie) : Bool :=
  match imdb_id, movieImdbStr m with
  | some i, some mi => !(i == "") && i == mi
  | _, _ => false

/-- The PRIORITY 1 loop body of radarr_client.py:157-166: one pass over the
movie list, testing each movie's TMDB id and then its IMDB id. -/
def movieIdMatchB (tmdb_id imdb_id : Option String) (m : Movie) : Bool :=
  movieTmdbMatchB tmdb_id m || movieImdbMatchB imdb_id m

/-- RadarrClient.search_movies_by_title (radarr_client.py:87-108):
bidirectional lower-cased containment against title, original title and
alternative titles, skipping falsy (empty) candidate titles. -/
def search_movies_by_title (moviesList : List Movie) (title : PyStr) : List Movie :=
  if moviesList = [] then []
  else
    let title_lower := title.map lowerChar
    moviesList.filter (fun m =>
      let all_titles := m.title.map lowerChar :: m.originalTitle.map lowerChar ::
        m.alternativeTitles.map (fun a => a.map lowerChar)
      all_titles.any (fun t =>
        !t.isEmpty && (substrOf title_lower t || substrOf t title_lower)))

/-- Year filter of radarr_client.py:182-186 (same rule as the series one). -/
def yearFilterMovies (year : Option Int) (titleMatches : List Movie) : List Movie :=
  match year with
  | some y =>
    if y ≠ 0 ∧ titleMatches.length > 1 then
      let ym := titleMatches.filter (fun m =>
        match m.year with
        | some my => !(my == 0) && decide ((my - y).natAbs ≤ 1)
        | none => false)
      if ym ≠ [] then ym else titleMatches
    else titleMatches
  | none => titleMatches

/-- tmdbId rendered by `str(...)` with no truthiness guard (radarr_client.py:210). -/
def movieTmdbRaw (m : Movie) : String :=
  match m.tmdbId with
  | some n => toString n
  | none => "None"

/-- The external-lookup fallback of radarr_client.py:204-217. -/
def movieLookupScan (moviesList : List Movie) : List Movie → Option Movie
  | [] => none
  | l :: rest =>
    match l.tmdbId with
    | some n =>
      if n ≠ 0 then
        match moviesList.find? (fun m => movieTmdbRaw m == toString n) with
        | some m => some m
        | none => movieLookupScan moviesList rest
      else movieLookupScan moviesList rest
    | none => movieLookupScan moviesList rest

/-- Year filter applied to movie lookup results (radarr_client.py:198-202). -/
def yearFilterLookupMovies (year : Option Int) (lookupResults : List Movie) : List Movie :=
  match year with
  | some y =>
    if y ≠ 0 then
      let ym := lookupResults.filter (fun m =>
        match m.year with
        | some my => !(my == 0) && decide ((my - y).natAbs ≤ 1)
        | none => false)
      if ym ≠ [] then ym else lookupResults
    else lookupResults
  | none => lookupResults

/-- Title tiers of find_movie_by_jellyfin_metadata (radarr_client.py:175-220). -/
def movieTitlePhase (moviesList : List Movie) (title : PyStr) (year : Option Int)
    (lookupResults : List Movie) : Option Movie × Bool :=
  let titleMatches := search_movies_by_title moviesList title
  if titleMatches ≠ [] then
    ((yearFilterMovies year titleMatches).head?, true)
  else
    (movieLookupScan moviesList (yearFilterLookupMovies year lookupResults), true)

/-- RadarrClient.find_movie_by_jellyfin_metadata (radarr_client.py:141-220).
PRIORITY 1 is a single pass over the movie list in order, testing each
movie's TMDB id then its IMDB id; the first movie matching either supplied
ID is returned. The Bool records whether title matching was consulted. -/
def find_movie_by_jellyfin_metadata (moviesList : List Movie) (title : PyStr)
    (year : Option Int) (tmdb_id imdb_id : Option String)
    (lookupResults : List Movie) : Option Movie × Bool :=
  if truthyStr tmdb_id || truthyStr imdb_id then
    match moviesList.find? (movieIdMatchB tmdb_id imdb_id) with
    | some m => (some m, false)
    | none => movieTitlePhase moviesList title year lookupResults
  else movieTitlePhase moviesList title year lookupResults

/-! Monitoring updates (sonarr_client.py:216-305). Remote state is a list
of episodes plus a flag giving the outcome of PUT requests; each operation
returns its result together with the list of remote calls it performed. -/

/-- A Sonarr episode, with the fields the monitoring code reads. -/
structure Episode where
  id : Nat
  seriesId : Nat
  seasonNumber : Nat
deriving DecidableEq, Repr

/-- A remote HTTP request made to Sonarr. -/
inductive RemoteCall where
  | getEpisode (episodeId : Nat)
  | getEpisodesOfSeries (seriesId : Nat)
  | putEpisode (episodeId : Nat) (monitored : Bool)
  | putEpisodeMonitorBulk (episodeIds : List Nat) (monitored : Bool)
deriving DecidableEq, Repr

/-- Whether a remote call is a monitoring update (an HTTP PUT). -/
def RemoteCall.isPut : RemoteCall → Bool
  | .putEpisode _ _ => true
  | .putEpisodeMonitorBulk _ _ => true
  | _ => false

/-- The Sonarr remote environment: its episode list, and whether PUT
requests succeed with a truthy response (failures and exhausted retries
both surface as a falsy outcome in the client). -/
structure SonarrEnv where
  episodes : List Episode
  putOk : Bool
deriving DecidableEq, Repr

/-- SonarrClient.update_episode_monitoring (sonarr_client.py:216-243):
fetch the episode; if it is a season-0 special and specials are ignored,
report success without updating; otherwise PUT the updated episode. -/
def update_episode_monitoring (env : SonarrEnv) (episodeId : Nat)
    (monitored : Bool) (ignoreSpecials : Bool) : Bool × List RemoteCall :=
  match env.episodes.find? (fun e => e.id == episodeId) with
  | none => (false, [.getEpisode episodeId])
  | some ep =>
    if ep.seasonNumber == 0 && ignoreSpecials then
      (true, [.getEpisode episodeId])
    else
      (env.putOk, [.getEpisode episodeId, .putEpisode episodeId monitored])

/-- SonarrClient.get_episodes_for_series (sonarr_client.py:160-175). -/
def get_episodes_for_series (env : SonarrEnv) (seriesId : Nat)
    (includeSpecials : Bool) : List Episode × List RemoteCall :=
  let eps := env.episodes.filter (fun e => e.seriesId == seriesId)
  (if includeSpecials then eps else eps.filter (fun e => !(e.seasonNumber == 0)),
   [.getEpisodesOfSeries seriesId])

/-- SonarrClient.bulk_update_episode_monitoring (sonarr_client.py:277-295). -/
def bulk_update_episode_monitoring (env : SonarrEnv) (episodeIds : List Nat)
    (monitored : Bool) : Bool × List RemoteCall :=
  (env.putOk, [.putEpisodeMonitorBulk episodeIds monitored])

/-- SonarrClient._fallback_season_monitoring (sonarr_client.py:297-305):
one update per episode, succeeding when at least one succeeded. -/
def fallback_season_monitoring (env : SonarrEnv) (seasonEpisodes : List Episode)
    (monitored : Bool) (ignoreSpecials : Bool) : Bool × List RemoteCall :=
  let results := seasonEpisodes.map
    (fun ep => update_episode_monitoring env ep.id monitored ignoreSpecials)
  (decide ((results.filter (fun r => r.1)).length > 0),
   (results.map (fun r => r.2)).flatten)

/-- SonarrClient.update_season_monitoring (sonarr_client.py:245-275):
season 0 with specials ignored reports success before any remote call;
otherwise fetch the series episodes, bulk-update the season's episodes,
falling back to per-episode updates when the bulk call fails. -/
def update_season_monitoring (env : SonarrEnv) (seriesId seasonNumber : Nat)
    (monitored : Bool) (ignoreSpecials : Bool) : Bool × List RemoteCall :=
  if seasonNumber == 0 && ignoreSpecials then (true, [])
  else
    let fetched := get_episodes_for_series env seriesId true
    let seasonEpisodes := fetched.1.filter (fun e => e.seasonNumber == seasonNumber)
    if seasonEpisodes = [] then (false, fetched.2)
    else
      let bulk := bulk_update_episode_monitoring env
        (seasonEpisodes.map (fun e => e.id)) monitored
      if bulk.1 then (true, fetched.2 ++ bulk.2)
      else
        let fb := fallback_season_monitoring env seasonEpisodes monitored ignoreSpecials
        (fb.1, fetched.2 ++ bulk.2 ++ fb.2)

/-! Sync-log statuses and the writes performed on them (models.py:25-29,
webhook_handler.py:569-612, main.py:1018-1206). -/

/-- The SyncStatus enumeration (models.py:25-29). -/
inductive SyncStatus where
  | pending
  | processing
  | completed
  | failed
deriving DecidableEq, Repr

/-- The final status written by _sync_with_service (webhook_handler.py:569):
completed on success, failed otherwise. -/
def syncOutcomeStatus (success : Bool) : SyncStatus :=
  if success then .completed else .failed

/-- The retry guard and reset of retry_sync_action (main.py:1047-1086): a
completed record is rejected unless force is set, a processing record is
always rejected, and any record passing the guard is set to processing. -/
def retryResetStatus (prior : SyncStatus) (force : Bool) : Option SyncStatus :=
  if prior = .completed ∧ force = false then none
  else if prior = .processing then none
  else some .processing

/-- The distinct sites at which the code writes a sync-log status. The
pipeline writes apply to the record _update_sync_log just returned, which
that function always leaves in the processing state
(webhook_handler.py:595,607); the bulk retry write applies only to records
selected by its `status == "failed"` query (main.py:1141). -/
inductive StatusWrite where
  | pipelineOutcome (success : Bool)
  | pipelineError
  | retryReset (prior : SyncStatus) (force : Bool)
  | retryErrorRevert
  | bulkRetryReset
  | retryReuse
deriving DecidableEq, Repr

/-- The (from, to) status transition each write site performs, when its
guards let it happen at all. -/
def statusTransition : StatusWrite → Option (SyncStatus × SyncStatus)
  | .pipelineOutcome success => some (.processing, syncOutcomeStatus success)
  | .pipelineError => some (.processing, .failed)
  | .retryReset prior force =>
    match retryResetStatus prior force with
    | some st => some (prior, st)
    | none => none
  | .retryErrorRevert => some (.processing, .failed)
  | .bulkRetryReset => some (.failed, .processing)
  | .retryReuse => some (.processing, .processing)

/-- The transitions the claim allows: pending/processing to
completed/failed, and failed back to processing via retry. -/
def claimAllowedTransitionB (a b : SyncStatus) : Bool :=
  ((a == .pending || a == .processing) && (b == .completed || b == .failed))
    || (a == .failed && b == .processing)

/-- Whether a status write is a retry request carrying force=true. -/
def isForcedRetryWrite : StatusWrite → Bool
  | .retryReset _ force => force
  | _ => false

/-- Whether a status write comes from a retry request (single or bulk). -/
def isRetryWrite : StatusWrite → Bool
  | .retryReset _ _ => true
  | .bulkRetryReset => true
  | .retryReuse => true
  | _ => false

/-! The per-event pipeline (webhook_handler.py:38-97 and 280-399),
abstracted to the order of its observable steps. -/

/-- Observable steps of the per-event pipeline, in execution order. -/
inductive PipelineStep where
  | dbGetOrCreate
  | dbUpdateWatched
  | mappingLookup
  | resolverRemoteSearch
  | auditWrite
  | remoteMonitorCall
deriving DecidableEq, Repr

/-- Steps of _sync_with_service (webhook_handler.py:474-586): mapping
lookup; without a mapping, a resolver search that may fail and end the
sync before any audit write or monitoring call. -/
def sync_with_service_steps (mappingExists resolverFinds : Bool) : List PipelineStep :=
  .mappingLookup ::
    (if mappingExists then [.auditWrite, .remoteMonitorCall]
     else if resolverFinds then [.resolverRemoteSearch, .auditWrite, .remoteMonitorCall]
     else [.resolverRemoteSearch])

/-- Step trace of _process_watched_status_change (webhook_handler.py:280-399):
get-or-create the media record, compare the stored and incoming watched
flags, and skip the sync (returning early) when they are equal and
force_sync is false. -/
def process_watched_status_change_steps (storedWatched incomingWatched force : Bool)
    (mappingExists resolverFinds : Bool) : List PipelineStep :=
  .dbGetOrCreate ::
    (if storedWatched == incomingWatched && !force then []
     else .dbUpdateWatched :: sync_with_service_steps mappingExists resolverFinds)

/-! The dedup cache of process_webhook (webhook_handler.py:74-97). -/

/-- The fields the dedup key is built from. -/
structure WatchKeyEvent where
  jellyfinId : String
  userId : String
  isWatched : Option Bool
deriving DecidableEq, Repr

/-- Python `str(True)` / `str(False)`. -/
def pyBoolStr : Bool → String
  | true => "True"
  | false => "False"

/-- The cache key of webhook_handler.py:76:
`f"{jellyfin_id}_{user_id}_{is_watched}"` with `'unknown'` when the
watched flag is absent. -/
def cacheKey (e : WatchKeyEvent) : String :=
  e.jellyfinId ++ "_" ++ e.userId ++ "_" ++
    (match e.isWatched with
     | some b => pyBoolStr b
     | none => "unknown")

/-- Outcome of the dedup gate around one event: whether the downstream
pipeline ran, the cache contents while it ran, and the cache afterwards. -/
structure DedupOutcome where
  processed : Bool
  cacheDuring : List String
  cacheAfter : List String
deriving DecidableEq, Repr

/-- The dedup gate of process_webhook (webhook_handler.py:77-97): drop the
event when its key is present; otherwise insert the key, run the pipeline,
and pop the key in a `finally` block, so the pop happens whether the
pipeline body succeeded or raised. -/
def process_webhook_dedup (cache : List String) (e : WatchKeyEvent)
    (_pipelineRaises : Bool) : DedupOutcome :=
  let key := cacheKey e
  if key ∈ cache then
    { processed := false, cacheDuring := cache, cacheAfter := cache }
  else
    { processed := true,
      cacheDuring := key :: cache,
      cacheAfter := (key :: cache).erase key }

/-! The webhook ingress endpoint jellyfin_webhook (main.py:301-364). -/

/-- A JSON value, as far as the endpoint inspects one. -/
inductive JVal where
  | jstr (s : String)
  | jother
deriving DecidableEq, Repr

/-- The request body, classified the way the endpoint branches on it. -/
inductive RawBody where
  | empty
  | notJson
  | jsonNonDict
  | jsonDict (fields : List (String × JVal))
deriving DecidableEq, Repr

/-- What the endpoint replies with. -/
inductive RespTag where
  | unauthorized
  | ignoredEmptyBody
  | invalidJson
  | ignoredEmptyTemplate
  | queued
deriving DecidableEq, Repr

/-- An HTTP response: status code and which body was sent. -/
structure Response where
  status : Nat
  tag : RespTag
deriving DecidableEq, Repr

/-- The token check of main.py:309-313: no check when the persisted token
is falsy; otherwise reject a falsy Authorization header or one differing
from `Bearer <token>`. -/
def authRejects (cfgToken : Option String) (auth : Option String) : Bool :=
  match cfgToken with
  | none => false
  | some t =>
    if t = "" then false
    else
      match auth with
      | none => true
      | some a => a == "" || !(a == "Bearer " ++ t)

/-- main.py:345: `all(v == "" for v in payload.values() if isinstance(v, str))`. -/
def allStringValuesEmpty (fields : List (String × JVal)) : Bool :=
  fields.all (fun kv =>
    match kv.2 with
    | .jstr s => s == ""
    | .jother => true)

/-- The body handling of main.py:315-356: empty body and empty-template
dicts get a 200 accepted-but-ignored reply, an unparseable body gets 422,
and everything else is queued for background processing with the default
200 response of the route. -/
def handleWebhookBody : RawBody → Response
  | .empty => { status := 200, tag := .ignoredEmptyBody }
  | .notJson => { status := 422, tag := .invalidJson }
  | .jsonNonDict => { status := 200, tag := .queued }
  | .jsonDict fields =>
    if allStringValuesEmpty fields then { status := 200, tag := .ignoredEmptyTemplate }
    else { status := 200, tag := .queued }

/-- The jellyfin_webhook endpoint (main.py:301-364): token check first,
then body handling. -/
def jellyfin_webhook (cfgToken : Option String) (auth : Option String)
    (body : RawBody) : Response :=
  if authRejects cfgToken auth then { status := 401, tag := .unauthorized }
  else handleWebhookBody body

/-- Modelled from the spec (section 6, amended to the endpoint's actual
status codes): 401 on a bad or missing token when one is configured, 422
on an unparseable body, 200 accepted-but-ignored for benign no-op payloads
(empty body, empty template), and 200 with an accepted/queued body for
payloads handed to background processing. -/
def amendedWebhookResponseSpec (cfgToken : Option String) (auth : Option String)
    (body : RawBody) : Response :=
  if authRejects cfgToken auth then { status := 401, tag := .unauthorized }
  else
    match body with
    | .notJson => { status := 422, tag := .invalidJson }
    | .empty => { status := 200, tag := .ignoredEmptyBody }
    | .jsonDict fields =>
      if allStringValuesEmpty fields then { status := 200, tag := .ignoredEmptyTemplate }
      else { status := 200, tag := .queued }
    | .jsonNonDict => { status := 200, tag := .queued }

/-! Auxiliary lemmas on the string model. -/

theorem map_id_of_mem {α : Type} (f : α → α) (l : List α) (h : ∀ a ∈ l, f a = a) :
    l.map f = l := by
  induction l with
  | nil => rfl
  | cons x xs ih =>
    simp only [List.map_cons, h x (List.mem_cons_self x xs),
      ih (fun a ha => h a (List.mem_cons_of_mem x ha))]

theorem lowerChar_idem (c : Nat) : lowerChar (lowerChar c) = lowerChar c := by
  unfold lowerChar
  by_cases h : 65 ≤ c ∧ c ≤ 90
  · rw [if_pos h, if_neg (by omega)]
  · rw [if_neg h, if_neg h]

theorem isSpaceChar_eq_false_of_isWordChar {c : Nat} (h : isWordChar c = true) :
    isSpaceChar c = false := by
  simp only [isWordChar, Bool.or_eq_true, Bool.and_eq_true, decide_eq_true_eq,
    beq_iff_eq] at h
  simp only [isSpaceChar, Bool.or_eq_false_iff, beq_eq_false_iff_ne, ne_eq]
  omega

theorem mem_splitOnP {α : Type} (p : α → Bool) (s : List α) :
    ∀ w ∈ s.splitOnP p, ∀ c ∈ w, p c = false ∧ c ∈ s := by
  induction s with
  | nil =>
    intro w hw c hc
    simp only [List.splitOnP_nil, List.mem_singleton] at hw
    subst hw
    exact absurd hc (List.not_mem_nil c)
  | cons x xs ih =>
    intro w hw c hc
    rw [List.splitOnP_cons] at hw
    by_cases hx : p x = true
    · rw [if_pos hx] at hw
      rcases List.mem_cons.mp hw with h | h
      · subst h; exact absurd hc (List.not_mem_nil c)
      · obtain ⟨hpc, hcs⟩ := ih w h c hc
        exact ⟨hpc, List.mem_cons_of_mem x hcs⟩
    · rw [if_neg hx] at hw
      obtain ⟨hd, tl, hsplit⟩ : ∃ hd tl, xs.splitOnP p = hd :: tl := by
        cases hxs : xs.splitOnP p with
        | nil => exact absurd hxs (List.splitOnP_ne_nil p xs)
        | cons hd tl => exact ⟨hd, tl, rfl⟩
      rw [hsplit] at hw
      simp only [List.modifyHead] at hw
      rcases List.mem_cons.mp hw with h | h
      · subst h
        rcases List.mem_cons.mp hc with h | h
        · subst h
          exact ⟨by simpa using hx, List.mem_cons_self _ _⟩
        · obtain ⟨hpc, hcs⟩ := ih hd (hsplit ▸ List.mem_cons_self hd tl) c h
          exact ⟨hpc, List.mem_cons_of_mem x hcs⟩
      · obtain ⟨hpc, hcs⟩ := ih w (hsplit ▸ List.mem_cons_of_mem hd h) c hc
        exact ⟨hpc, List.mem_cons_of_mem x hcs⟩

theorem splitWs_mem {s : PyStr} {w : PyStr} (hw : w ∈ splitWs s) :
    w ≠ [] ∧ ∀ c ∈ w, isSpaceChar c = false ∧ c ∈ s := by
  unfold splitWs at hw
  rw [List.mem_filter] at hw
  obtain ⟨hmem, hne⟩ := hw
  refine ⟨?_, fun c hc => mem_splitOnP isSpaceChar s w hmem c hc⟩
  intro h
  subst h
  simp at hne

theorem joinSpace_ne_nil {ws : List PyStr} (h : ws ≠ [])
    (hne : ∀ w ∈ ws, w ≠ []) : joinSpace ws ≠ [] := by
  match ws with
  | [] => exact absurd rfl h
  | [w] =>
    simpa [joinSpace] using hne w (List.mem_singleton.mpr rfl)
  | w :: w' :: rest =>
    simp only [joinSpace]
    intro hcontra
    exact hne w (List.mem_cons_self _ _) (List.append_eq_nil.mp hcontra).1

theorem splitWs_joinSpace {ws : List PyStr}
    (h : ∀ w ∈ ws, w ≠ [] ∧ ∀ c ∈ w, isSpaceChar c = false) :
    splitWs (joinSpace ws) = ws := by
  induction ws with
  | nil => simp [joinSpace, splitWs]
  | cons w rest ih =>
    match rest with
    | [] =>
      obtain ⟨hwne, hwc⟩ := h w (List.mem_singleton.mpr rfl)
      show splitWs w = [w]
      unfold splitWs
      rw [List.splitOnP_eq_single _ _ (fun c hc => by simp [hwc c hc])]
      simp [List.isEmpty_iff, hwne]
    | w' :: rest' =>
      obtain ⟨hwne, hwc⟩ := h w (List.mem_cons_self _ _)
      have hrest : ∀ u ∈ w' :: rest', u ≠ [] ∧ ∀ c ∈ u, isSpaceChar c = false :=
        fun u hu => h u (List.mem_cons_of_mem w hu)
      show splitWs (w ++ 32 :: joinSpace (w' :: rest')) = w :: w' :: rest'
      unfold splitWs
      rw [List.splitOnP_first _ _ (fun c hc => by simp [hwc c hc]) 32 (by decide)]
      rw [List.filter_cons_of_pos (by simp [List.isEmpty_iff, hwne])]
      have := ih hrest
      unfold splitWs at this
      rw [this]

theorem mem_joinSpace {ws : List PyStr} {c : Nat} (hc : c ∈ joinSpace ws) :
    c = 32 ∨ ∃ w ∈ ws, c ∈ w := by
  induction ws with
  | nil => simp [joinSpace] at hc
  | cons w rest ih =>
    match rest with
    | [] =>
      exact Or.inr ⟨w, List.mem_singleton.mpr rfl, hc⟩
    | w' :: rest' =>
      simp only [joinSpace] at hc
      rcases List.mem_append.mp hc with h | h
      · exact Or.inr ⟨w, List.mem_cons_self _ _, h⟩
      · rcases List.mem_cons.mp h with h | h
        · exact Or.inl h
        · rcases ih h with h32 | ⟨u, hu, hcu⟩
          · exact Or.inl h32
          · exact Or.inr ⟨u, List.mem_cons_of_mem w hu, hcu⟩

theorem clean_words_spec (t : PyStr) :
    ∀ w ∈ clean_words t, w ≠ [] ∧
      ∀ c ∈ w, isWordChar c = true ∧ isSpaceChar c = false ∧ lowerChar c = c := by
  intro w hw
  obtain ⟨hne, hchar⟩ := splitWs_mem hw
  refine ⟨hne, fun c hc => ?_⟩
  obtain ⟨hsp, hmem⟩ := hchar c hc
  rw [List.mem_filter] at hmem
  obtain ⟨hmap, hkeep⟩ := hmem
  have hword : isWordChar c = true := by
    simp only [keepChar, Bool.or_eq_true] at hkeep
    rcases hkeep with h | h
    · exact h
    · rw [hsp] at h; exact absurd h (by simp)
  refine ⟨hword, hsp, ?_⟩
  obtain ⟨c₀, _, hc₀⟩ := List.mem_map.mp hmap
  rw [← hc₀]
  exact lowerChar_idem c₀

theorem clean_title_eq (t : PyStr) (ht : t ≠ []) :
    clean_title t =
      if (clean_words t).filter notArticle ≠ []
      then joinSpace ((clean_words t).filter notArticle)
      else joinSpace (clean_words t) := by
  unfold clean_title
  rw [if_neg ht]
  have hwords : splitWs (joinSpace (splitWs ((t.map lowerChar).filter keepChar)))
      = splitWs ((t.map lowerChar).filter keepChar) :=
    splitWs_joinSpace (fun w hw =>
      ⟨(splitWs_mem hw).1, fun c hc => ((splitWs_mem hw).2 c hc).1⟩)
  simp only [clean_words, hwords]

theorem clean_title_joinSpace (S : List PyStr)
    (hS : ∀ w ∈ S, w ≠ [] ∧ ∀ c ∈ w, isWordChar c = true ∧ lowerChar c = c) :
    clean_title (joinSpace S) =
      if S.filter notArticle ≠ []
      then joinSpace (S.filter notArticle)
      else joinSpace S := by
  match S with
  | [] => simp [joinSpace, clean_title]
  | w₀ :: S' =>
    have hne : ∀ w ∈ w₀ :: S', w ≠ [] := fun w hw => (hS w hw).1
    have hjne : joinSpace (w₀ :: S') ≠ [] :=
      joinSpace_ne_nil (List.cons_ne_nil _ _) hne
    have hfix : ∀ c ∈ joinSpace (w₀ :: S'), lowerChar c = c := by
      intro c hc
      rcases mem_joinSpace hc with h32 | ⟨w, hw, hcw⟩
      · subst h32; decide
      · exact ((hS w hw).2 c hcw).2
    have hkeep : ∀ c ∈ joinSpace (w₀ :: S'), keepChar c = true := by
      intro c hc
      rcases mem_joinSpace hc with h32 | ⟨w, hw, hcw⟩
      · subst h32; decide
      · simp [keepChar, ((hS w hw).2 c hcw).1]
    have hmap : (joinSpace (w₀ :: S')).map lowerChar = joinSpace (w₀ :: S') :=
      map_id_of_mem lowerChar _ hfix
    have hfilter : (joinSpace (w₀ :: S')).filter keepChar = joinSpace (w₀ :: S') :=
      List.filter_eq_self.mpr hkeep
    have hsplit : splitWs (joinSpace (w₀ :: S')) = w₀ :: S' :=
      splitWs_joinSpace (fun w hw =>
        ⟨(hS w hw).1, fun c hc =>
          isSpaceChar_eq_false_of_isWordChar ((hS w hw).2 c hc).1⟩)
    unfold clean_title
    rw [if_neg hjne]
    simp only [hmap, hfilter, hsplit]

theorem clean_title_idem (title : PyStr) :
    clean_title (clean_title title) = clean_title title := by
  by_cases ht : title = []
  · subst ht; simp [clean_title]
  · rw [clean_title_eq title ht]
    have hspec : ∀ w ∈ clean_words title, w ≠ [] ∧
        ∀ c ∈ w, isWordChar c = true ∧ lowerChar c = c := by
      intro w hw
      obtain ⟨h1, h2⟩ := clean_words_spec title w hw
      exact ⟨h1, fun c hc => ⟨(h2 c hc).1, (h2 c hc).2.2⟩⟩
    by_cases hcw : (clean_words title).filter notArticle ≠ []
    · rw [if_pos hcw]
      have hsub : ∀ w ∈ (clean_words title).filter notArticle,
          w ≠ [] ∧ ∀ c ∈ w, isWordChar c = true ∧ lowerChar c = c :=
        fun w hw => hspec w (List.mem_of_mem_filter hw)
      rw [clean_title_joinSpace _ hsub]
      have hfilt : ((clean_words title).filter notArticle).filter notArticle
          = (clean_words title).filter notArticle :=
        List.filter_eq_self.mpr (fun w hw => List.of_mem_filter hw)
      rw [hfilt, if_pos hcw]
    · rw [if_neg hcw]
      push_neg at hcw
      rw [clean_title_joinSpace _ hspec, hcw]
      simp

/-! Lemmas on the tier-1 external-ID scans. -/

theorem seriesTier1Tvdb_some {L : List Series} {tvdb : Option String} {r : Series}
    (h : seriesTier1Tvdb L tvdb = some r) :
    ∃ t, tvdb = some t ∧ t ≠ "" ∧ r ∈ L ∧ tvdbMatchesB t r = true := by
  match tvdb with
  | none => simp [seriesTier1Tvdb] at h
  | some t =>
    simp only [seriesTier1Tvdb] at h
    by_cases ht : t = ""
    · rw [if_pos ht] at h; exact absurd h (by simp)
    · rw [if_neg ht] at h
      exact ⟨t, rfl, ht, List.mem_of_find?_eq_some h, List.find?_some h⟩

theorem seriesTier1Imdb_some {L : List Series} {imdb : Option String} {r : Series}
    (h : seriesTier1Imdb L imdb = some r) :
    ∃ i, imdb = some i ∧ i ≠ "" ∧ r ∈ L ∧ imdbMatchesB i r = true := by
  match imdb with
  | none => simp [seriesTier1Imdb] at h
  | some i =>
    simp only [seriesTier1Imdb] at h
    by_cases hi : i = ""
    · rw [if_pos hi] at h; exact absurd h (by simp)
    · rw [if_neg hi] at h
      exact ⟨i, rfl, hi, List.mem_of_find?_eq_some h, List.find?_some h⟩

theorem seriesIdMatch_gate {tvdb imdb : Option String} {s : Series}
    (h : seriesIdMatchB tvdb imdb s = true) :
    (truthyStr tvdb || truthyStr imdb) = true := by
  unfold seriesIdMatchB at h
  rcases Bool.or_eq_true_iff.mp h with h | h
  · cases tvdb with
    | none => simp at h
    | some t =>
      obtain ⟨h1, _⟩ := Bool.and_eq_true_iff.mp h
      have ht : t ≠ "" := by simpa using h1
      simp [truthyStr, ht]
  · cases imdb with
    | none => simp at h
    | some i =>
      obtain ⟨h1, _⟩ := Bool.and_eq_true_iff.mp h
      have hi : i ≠ "" := by simpa using h1
      simp [truthyStr, hi]

theorem seriesIdMatchB_of_tvdb {tvdb imdb : Option String} {r : Series} {t : String}
    (h1 : tvdb = some t) (h2 : t ≠ "") (h3 : tvdbMatchesB t r = true) :
    seriesIdMatchB tvdb imdb r = true := by
  subst h1
  unfold seriesIdMatchB
  simp [h2, h3]

theorem seriesIdMatchB_of_imdb {tvdb imdb : Option String} {r : Series} {i : String}
    (h1 : imdb = some i) (h2 : i ≠ "") (h3 : imdbMatchesB i r = true) :
    seriesIdMatchB tvdb imdb r = true := by
  subst h1
  unfold seriesIdMatchB
  simp [h2, h3]

theorem movieIdMatch_gate {tmdb imdb : Option String} {m : Movie}
    (h : movieIdMatchB tmdb imdb m = true) :
    (truthyStr tmdb || truthyStr imdb) = true := by
  unfold movieIdMatchB at h
  rcases Bool.or_eq_true_iff.mp h with h | h
  · cases tmdb with
    | none => simp [movieTmdbMatchB] at h
    | some t =>
      cases hmt : movieTmdbStr m with
      | none => simp [movieTmdbMatchB, hmt] at h
      | some mt =>
        simp only [movieTmdbMatchB, hmt, Bool.and_eq_true_iff] at h
        have ht : t ≠ "" := by simpa using h.1
        simp [truthyStr, ht]
  · cases imdb with
    | none => simp [movieImdbMatchB] at h
    | some i =>
      cases hmi : movieImdbStr m with
      | none => simp [movieImdbMatchB, hmi] at h
      | some mi =>
        simp only [movieImdbMatchB, hmi, Bool.and_eq_true_iff] at h
        have hi : i ≠ "" := by simpa using h.1
        simp [truthyStr, hi]

/-! The claim theorems. -/

/-- C9: title normalization is idempotent — applying `_clean_title` twice
yields the same string as applying it once. -/
theorem C9_clean_title_idempotent (title : PyStr) :
    clean_title (clean_title title) = clean_title title :=
  clean_title_idem title

/-- C8 counterexample: in "of the rings" the word "the" occurs in the
interior, yet `_clean_title` drops it, so interior articles are not
preserved as the claim states. -/
theorem C8_counterexample :
    clean_title (pyOfString "of the rings") = pyOfString "of rings" ∧
    pyOfString "the" ∈ clean_words (pyOfString "of the rings") ∧
    pyOfString "the" ∉ splitWs (clean_title (pyOfString "of the rings")) := by
  decide

/-- C8 amended: `_clean_title` drops "the"/"a"/"an" wherever they occur as
whole words — leading or interior — whenever at least one non-article word
remains; no article survives in the normalized output. -/
theorem C8_amended_articles_dropped_everywhere (t : PyStr)
    (h : ∃ w ∈ clean_words t, w ∉ common_words) :
    ∀ w ∈ splitWs (clean_title t), w ∉ common_words := by
  obtain ⟨w₀, hw₀, hw₀n⟩ := h
  have ht : t ≠ [] := by
    intro hteq
    subst hteq
    have hnil : clean_words ([] : PyStr) = [] := rfl
    rw [hnil] at hw₀
    exact absurd hw₀ (List.not_mem_nil w₀)
  rw [clean_title_eq t ht]
  have hcw : (clean_words t).filter notArticle ≠ [] := by
    intro hnil
    have hmem : w₀ ∈ (clean_words t).filter notArticle :=
      List.mem_filter.mpr ⟨hw₀, by simpa [notArticle] using hw₀n⟩
    rw [hnil] at hmem
    exact absurd hmem (List.not_mem_nil w₀)
  rw [if_pos hcw]
  have hspl : splitWs (joinSpace ((clean_words t).filter notArticle))
      = (clean_words t).filter notArticle := by
    apply splitWs_joinSpace
    intro w hw
    have hs := clean_words_spec t w (List.mem_of_mem_filter hw)
    exact ⟨hs.1, fun c hc => (hs.2 c hc).2.1⟩
  rw [hspl]
  intro w hw
  have := List.of_mem_filter hw
  simpa [notArticle] using this

/-- C8 amended witness: concrete instance of the amended claim. -/
theorem C8_amended_witness :
    (∃ w ∈ clean_words (pyOfString "of the rings"), w ∉ common_words) ∧
    ∀ w ∈ splitWs (clean_title (pyOfString "of the rings")), w ∉ common_words :=
  ⟨by decide, C8_amended_articles_dropped_everywhere _ (by decide)⟩

/-- C1: whenever a supplied truthy external ID (TVDB/IMDB for series,
TMDB/IMDB for movies) matches an existing entity, the resolver returns an
external-ID-matched entity and never consults title matching (the returned
flag records whether title search ran). -/
theorem C1_external_id_match_wins :
    (∀ (seriesList : List Series) (title : PyStr) (year : Option Int)
       (tvdb_id imdb_id : Option String) (lookups : List Series),
       (∃ s ∈ seriesList, seriesIdMatchB tvdb_id imdb_id s = true) →
       ∃ r ∈ seriesList,
         find_series_by_jellyfin_metadata seriesList title year tvdb_id imdb_id lookups
           = (some r, false) ∧ seriesIdMatchB tvdb_id imdb_id r = true) ∧
    (∀ (moviesList : List Movie) (title : PyStr) (year : Option Int)
       (tmdb_id imdb_id : Option String) (lookups : List Movie),
       (∃ m ∈ moviesList, movieIdMatchB tmdb_id imdb_id m = true) →
       ∃ r ∈ moviesList,
         find_movie_by_jellyfin_metadata moviesList title year tmdb_id imdb_id lookups
           = (some r, false) ∧ movieIdMatchB tmdb_id imdb_id r = true) := by
  constructor
  · rintro L title year tvdb imdb lookups ⟨s₀, hs₀, hm⟩
    have hgate := seriesIdMatch_gate hm
    unfold find_series_by_jellyfin_metadata
    rw [if_pos hgate]
    cases h1 : seriesTier1Tvdb L tvdb with
    | some r =>
      obtain ⟨t, hteq, htne, hrmem, hrmatch⟩ := seriesTier1Tvdb_some h1
      exact ⟨r, hrmem, rfl, seriesIdMatchB_of_tvdb hteq htne hrmatch⟩
    | none =>
      cases h2 : seriesTier1Imdb L imdb with
      | some r =>
        obtain ⟨i, hieq, hine, hrmem, hrmatch⟩ := seriesTier1Imdb_some h2
        exact ⟨r, hrmem, rfl, seriesIdMatchB_of_imdb hieq hine hrmatch⟩
      | none =>
        exfalso
        unfold seriesIdMatchB at hm
        rcases Bool.or_eq_true_iff.mp hm with h | h
        · cases tvdb with
          | none => simp at h
          | some t =>
            obtain ⟨h1', h2'⟩ := Bool.and_eq_true_iff.mp h
            have htne : t ≠ "" := by simpa using h1'
            simp only [seriesTier1Tvdb] at h1
            rw [if_neg htne] at h1
            exact absurd h2' (by simpa using List.find?_eq_none.mp h1 s₀ hs₀)
        · cases imdb with
          | none => simp at h
          | some i =>
            obtain ⟨h1', h2'⟩ := Bool.and_eq_true_iff.mp h
            have hine : i ≠ "" := by simpa using h1'
            simp only [seriesTier1Imdb] at h2
            rw [if_neg hine] at h2
            exact absurd h2' (by simpa using List.find?_eq_none.mp h2 s₀ hs₀)
  · rintro L title year tmdb imdb lookups ⟨m₀, hm₀, hm⟩
    have hgate := movieIdMatch_gate hm
    unfold find_movie_by_jellyfin_metadata
    rw [if_pos hgate]
    cases hf : L.find? (movieIdMatchB tmdb imdb) with
    | some r =>
      exact ⟨r, List.mem_of_find?_eq_some hf, rfl, List.find?_some hf⟩
    | none =>
      exact absurd hm (by simpa using List.find?_eq_none.mp hf m₀ hm₀)

/-- C1 witness: concrete series and movie lists where a supplied external
ID matches, instantiating both halves of the theorem. -/
theorem C1_witness :
    ((∃ s ∈ [(⟨1, pyOfString "x", none, some 5, none, []⟩ : Series)],
        seriesIdMatchB (some "5") none s = true) ∧
     ∃ r ∈ [(⟨1, pyOfString "x", none, some 5, none, []⟩ : Series)],
       find_series_by_jellyfin_metadata
           [⟨1, pyOfString "x", none, some 5, none, []⟩]
           (pyOfString "x") none (some "5") none []
         = (some r, false) ∧ seriesIdMatchB (some "5") none r = true) ∧
    ((∃ m ∈ [(⟨1, pyOfString "y", none, none, some "tt9", [], []⟩ : Movie)],
        movieIdMatchB none (some "tt9") m = true) ∧
     ∃ r ∈ [(⟨1, pyOfString "y", none, none, some "tt9", [], []⟩ : Movie)],
       find_movie_by_jellyfin_metadata
           [⟨1, pyOfString "y", none, none, some "tt9", [], []⟩]
           (pyOfString "y") none none (some "tt9") []
         = (some r, false) ∧ movieIdMatchB none (some "tt9") r = true) :=
  ⟨⟨by decide, C1_external_id_match_wins.1 _ _ _ _ _ _ (by decide)⟩,
   ⟨by decide, C1_external_id_match_wins.2 _ _ _ _ _ _ (by decide)⟩⟩

/-- C4 counterexample: both a TMDB and an IMDB id are supplied, each
matching a different existing movie; the movie resolver returns the
IMDB-matched movie that comes first in list order, not the TMDB-matched
one — the TMDB id is not tried before the IMDB id across the list. -/
theorem C4_counterexample :
    find_movie_by_jellyfin_metadata
        [⟨1, pyOfString "alpha", none, some 1, some "tt1", [], []⟩,
         ⟨2, pyOfString "beta", none, some 5, none, [], []⟩]
        (pyOfString "alpha") none (some "5") (some "tt1") []
      = (some ⟨1, pyOfString "alpha", none, some 1, some "tt1", [], []⟩, false) ∧
    movieTmdbMatchB (some "5") ⟨2, pyOfString "beta", none, some 5, none, [], []⟩ = true ∧
    movieTmdbMatchB (some "5") ⟨1, pyOfString "alpha", none, some 1, some "tt1", [], []⟩
      = false ∧
    movieImdbMatchB (some "tt1") ⟨1, pyOfString "alpha", none, some 1, some "tt1", [], []⟩
      = true := by
  decide

/-- C4 amended: the movie resolver scans the movie list once in order,
testing each movie's TMDB id and then its IMDB id; when some movie matches
a supplied ID, the first such movie in list order is returned (so TMDB
precedes IMDB only within one movie, not across the list). -/
theorem C4_amended_first_match_in_list_order (moviesList : List Movie) (title : PyStr)
    (year : Option Int) (tmdb_id imdb_id : Option String) (lookups : List Movie)
    (h : ∃ m ∈ moviesList, movieIdMatchB tmdb_id imdb_id m = true) :
    find_movie_by_jellyfin_metadata moviesList title year tmdb_id imdb_id lookups
      = (moviesList.find? (movieIdMatchB tmdb_id imdb_id), false) := by
  obtain ⟨m₀, hm₀, hm⟩ := h
  unfold find_movie_by_jellyfin_metadata
  rw [if_pos (movieIdMatch_gate hm)]
  cases hf : moviesList.find? (movieIdMatchB tmdb_id imdb_id) with
  | some r => rfl
  | none => exact absurd hm (by simpa using List.find?_eq_none.mp hf m₀ hm₀)

/-- C4 amended witness: the counterexample input instantiates the amended
theorem. -/
theorem C4_amended_witness :
    find_movie_by_jellyfin_metadata
        [⟨1, pyOfString "alpha", none, some 1, some "tt1", [], []⟩,
         ⟨2, pyOfString "beta", none, some 5, none, [], []⟩]
        (pyOfString "alpha") none (some "5") (some "tt1") []
      = ([⟨1, pyOfString "alpha", none, some 1, some "tt1", [], []⟩,
          (⟨2, pyOfString "beta", none, some 5, none, [], []⟩ : Movie)].find?
           (movieIdMatchB (some "5") (some "tt1")), false) :=
  C4_amended_first_match_in_list_order _ _ _ _ _ _ (by decide)

/-- C2: when the stored watched flag equals the incoming one, the pipeline
stops right after the get-or-create step unless force is set — no mapping
lookup, resolver search or remote monitoring call happens; with force set
the sync (beginning with the mapping lookup) executes regardless. -/
theorem C2_equal_flags_skip_unless_forced
    (stored incoming force mappingExists resolverFinds : Bool)
    (h : stored = incoming) :
    (force = false →
       process_watched_status_change_steps stored incoming force mappingExists resolverFinds
         = [.dbGetOrCreate] ∧
       PipelineStep.mappingLookup ∉
         process_watched_status_change_steps stored incoming force mappingExists resolverFinds ∧
       PipelineStep.remoteMonitorCall ∉
         process_watched_status_change_steps stored incoming force mappingExists resolverFinds ∧
       PipelineStep.resolverRemoteSearch ∉
         process_watched_status_change_steps stored incoming force mappingExists resolverFinds) ∧
    (force = true →
       PipelineStep.mappingLookup ∈
         process_watched_status_change_steps stored incoming force mappingExists resolverFinds) := by
  subst h
  cases stored <;> cases force <;> cases mappingExists <;> cases resolverFinds <;> decide

/-- C2 witness: concrete instances of the skip and of the forced sync. -/
theorem C2_witness :
    (process_watched_status_change_steps true true false true true = [.dbGetOrCreate] ∧
     PipelineStep.mappingLookup ∉ process_watched_status_change_steps true true false true true ∧
     PipelineStep.remoteMonitorCall ∉
       process_watched_status_change_steps true true false true true ∧
     PipelineStep.resolverRemoteSearch ∉
       process_watched_status_change_steps true true false true true) ∧
    PipelineStep.mappingLookup ∈ process_watched_status_change_steps true true true true true :=
  ⟨(C2_equal_flags_skip_unless_forced true true false true true rfl).1 rfl,
   (C2_equal_flags_skip_unless_forced true true true true true rfl).2 rfl⟩

/-- C3 counterexample: a retry request with force=true moves a completed
record back to processing, a transition the claim forbids. -/
theorem C3_counterexample :
    statusTransition (.retryReset .completed true) = some (.completed, .processing) ∧
    claimAllowedTransitionB .completed .processing = false := by
  decide

/-- C3 amended: every genuine status transition either goes from
pending/processing to completed/failed or from failed to processing via a
retry, except that a retry request may also reset a completed record to
processing when force is set (and would reset a pending one, were any
pending record ever created). -/
theorem C3_amended_transitions (w : StatusWrite) (a b : SyncStatus)
    (h : statusTransition w = some (a, b)) (hne : a ≠ b) :
    claimAllowedTransitionB a b = true
    ∨ (b = .processing ∧ isRetryWrite w = true ∧
       (a = .failed ∨ a = .pending ∨ (a = .completed ∧ isForcedRetryWrite w = true))) := by
  cases w with
  | pipelineOutcome success =>
    cases success <;>
      · simp only [statusTransition, syncOutcomeStatus, if_true, if_false,
          Option.some.injEq, Prod.mk.injEq] at h
        obtain ⟨rfl, rfl⟩ := h
        left; decide
  | pipelineError =>
    simp only [statusTransition, Option.some.injEq, Prod.mk.injEq] at h
    obtain ⟨rfl, rfl⟩ := h
    left; decide
  | retryReset prior force =>
    cases prior <;> cases force <;> simp [statusTransition, retryResetStatus] at h <;>
      · obtain ⟨rfl, rfl⟩ := h
        first
        | (left; decide)
        | (right; decide)
  | retryErrorRevert =>
    simp only [statusTransition, Option.some.injEq, Prod.mk.injEq] at h
    obtain ⟨rfl, rfl⟩ := h
    left; decide
  | bulkRetryReset =>
    simp only [statusTransition, Option.some.injEq, Prod.mk.injEq] at h
    obtain ⟨rfl, rfl⟩ := h
    left; decide
  | retryReuse =>
    simp only [statusTransition, Option.some.injEq, Prod.mk.injEq] at h
    obtain ⟨rfl, rfl⟩ := h
    exact absurd rfl hne

/-- C3 amended witness: the forced retry of a completed record instantiates
the amended theorem. -/
theorem C3_amended_witness :
    statusTransition (.retryReset .completed true) = some (.completed, .processing) ∧
    (claimAllowedTransitionB .completed .processing = true
     ∨ (SyncStatus.processing = .processing ∧
        isRetryWrite (.retryReset .completed true) = true ∧
        (SyncStatus.completed = .failed ∨ SyncStatus.completed = .pending ∨
         (SyncStatus.completed = .completed ∧
          isForcedRetryWrite (.retryReset .completed true) = true)))) :=
  ⟨by decide, C3_amended_transitions _ _ _ (by decide) (by decide)⟩

/-- C5 counterexample: with specials ignored, an episode-level update for a
season-0 episode reports success but still performs one remote call (the
GET fetching the episode), so the claimed "zero remote calls" fails. -/
theorem C5_counterexample :
    update_episode_monitoring ⟨[⟨1, 7, 0⟩], true⟩ 1 false true
      = (true, [.getEpisode 1]) ∧
    ([RemoteCall.getEpisode 1] : List RemoteCall) ≠ [] := by
  decide

/-- C5 amended: with specials ignored, a season-level update for season 0
returns success with zero remote calls, and an episode-level update for a
season-0 episode returns success after only the episode GET — neither path
issues any monitoring-update (PUT) call — and a successful sync marks the
audit record completed. -/
theorem C5_amended_specials_skip :
    (∀ (env : SonarrEnv) (seriesId : Nat) (monitored : Bool),
       update_season_monitoring env seriesId 0 monitored true = (true, [])) ∧
    (∀ (env : SonarrEnv) (episodeId : Nat) (ep : Episode) (monitored : Bool),
       env.episodes.find? (fun e => e.id == episodeId) = some ep →
       ep.seasonNumber = 0 →
       update_episode_monitoring env episodeId monitored true
         = (true, [.getEpisode episodeId]) ∧
       ∀ c ∈ (update_episode_monitoring env episodeId monitored true).2,
         RemoteCall.isPut c = false) ∧
    syncOutcomeStatus true = .completed := by
  refine ⟨?_, ?_, rfl⟩
  · intro env seriesId monitored
    unfold update_season_monitoring
    rfl
  · intro env episodeId ep monitored hfind hseason
    unfold update_episode_monitoring
    rw [hfind]
    simp [hseason, RemoteCall.isPut]

/-- C5 amended witness: concrete environment with a single season-0
episode. -/
theorem C5_amended_witness :
    update_season_monitoring ⟨[⟨1, 7, 0⟩], true⟩ 7 0 false true = (true, []) ∧
    (update_episode_monitoring ⟨[⟨1, 7, 0⟩], true⟩ 1 false true
       = (true, [.getEpisode 1]) ∧
     ∀ c ∈ (update_episode_monitoring ⟨[⟨1, 7, 0⟩], true⟩ 1 false true).2,
       RemoteCall.isPut c = false) :=
  ⟨C5_amended_specials_skip.1 _ _ _,
   C5_amended_specials_skip.2.1 ⟨[⟨1, 7, 0⟩], true⟩ 1 ⟨1, 7, 0⟩ false (by decide) (by decide)⟩

/-- C6: the dedup gate drops an event whose key is already cached without
touching the cache, and otherwise runs the pipeline with the key inserted
for its duration and removed afterwards, whether or not the pipeline body
raised. -/
theorem C6_dedup_cache (cache : List String) (e : WatchKeyEvent) (raises : Bool) :
    (cacheKey e ∈ cache →
       process_webhook_dedup cache e raises
         = { processed := false, cacheDuring := cache, cacheAfter := cache }) ∧
    (cacheKey e ∉ cache →
       (process_webhook_dedup cache e raises).processed = true ∧
       cacheKey e ∈ (process_webhook_dedup cache e raises).cacheDuring ∧
       (process_webhook_dedup cache e raises).cacheAfter = cache) := by
  constructor
  · intro hmem
    unfold process_webhook_dedup
    rw [if_pos hmem]
  · intro hmem
    unfold process_webhook_dedup
    rw [if_neg hmem]
    exact ⟨rfl, List.mem_cons_self _ _, List.erase_cons_head _ _⟩

/-- C6 witness: a duplicate key is dropped; a fresh key is processed and
released even when the pipeline raises. -/
theorem C6_witness :
    process_webhook_dedup ["i_u_True"] ⟨"i", "u", some true⟩ false
      = { processed := false, cacheDuring := ["i_u_True"], cacheAfter := ["i_u_True"] } ∧
    ((process_webhook_dedup [] ⟨"i", "u", some true⟩ true).processed = true ∧
     cacheKey ⟨"i", "u", some true⟩
       ∈ (process_webhook_dedup [] ⟨"i", "u", some true⟩ true).cacheDuring ∧
     (process_webhook_dedup [] ⟨"i", "u", some true⟩ true).cacheAfter = []) :=
  ⟨(C6_dedup_cache ["i_u_True"] ⟨"i", "u", some true⟩ false).1 (by decide),
   (C6_dedup_cache [] ⟨"i", "u", some true⟩ true).2 (by decide)⟩

/-- C7 counterexample: a parseable, relevant payload is queued with HTTP
status 200 (the route's default), not 202 as the claim states. -/
theorem C7_counterexample :
    jellyfin_webhook none none (.jsonDict [("ItemId", .jstr "abc123")])
      = { status := 200, tag := .queued } ∧ (200 : Nat) ≠ 202 := by
  decide

/-- C7 amended: the endpoint replies 401 on a bad or missing token when one
is configured, 422 on an unparseable body, 200 accepted-but-ignored for
benign no-op payloads (empty body, empty template), and 200 — not 202 —
with an accepted/queued body for payloads queued for processing. -/
theorem C7_amended_response_codes (cfgToken auth : Option String) (body : RawBody) :
    jellyfin_webhook cfgToken auth body = amendedWebhookResponseSpec cfgToken auth body := by
  unfold jellyfin_webhook amendedWebhookResponseSpec
  by_cases h : authRejects cfgToken auth = true
  · rw [if_pos h, if_pos h]
  · rw [if_neg h, if_neg h]
    cases body <;> rfl

/-- C10: with no persisted token the endpoint ignores the Authorization
header entirely (the response is the plain body handling for every
header), and a 401 arises exactly from the token check — only when a
non-empty token is configured and the header is absent or differs from
"Bearer " followed by the token. -/
theorem C10_auth_only_when_token_configured :
    (∀ (auth : Option String) (body : RawBody),
       jellyfin_webhook none auth body = handleWebhookBody body) ∧
    (∀ (cfgToken auth : Option String) (body : RawBody),
       (jellyfin_webhook cfgToken auth body).status = 401
         ↔ authRejects cfgToken auth = true) ∧
    (∀ (cfgToken auth : Option String), authRejects cfgToken auth = true →
       ∃ t, cfgToken = some t ∧ t ≠ "" ∧
         (auth = none ∨ ∃ a, auth = some a ∧ a ≠ "Bearer " ++ t)) := by
  refine ⟨?_, ?_, ?_⟩
  · intro auth body
    unfold jellyfin_webhook
    rw [if_neg (by simp [authRejects])]
  · intro cfgToken auth body
    unfold jellyfin_webhook
    by_cases h : authRejects cfgToken auth = true
    · rw [if_pos h]
      simpa using h
    · rw [if_neg h]
      constructor
      · intro hst
        exfalso
        cases body with
        | jsonDict fields =>
          by_cases hb : allStringValuesEmpty fields = true <;>
            simp [handleWebhookBody, hb] at hst
        | empty => simp [handleWebhookBody] at hst
        | notJson => simp [handleWebhookBody] at hst
        | jsonNonDict => simp [handleWebhookBody] at hst
      · intro hh
        exact absurd hh h
  · intro cfgToken auth h
    cases cfgToken with
    | none => simp [authRejects] at h
    | some t =>
      simp only [authRejects] at h
      by_cases ht : t = ""
      · rw [if_pos ht] at h
        exact absurd h (by simp)
      · rw [if_neg ht] at h
        refine ⟨t, rfl, ht, ?_⟩
        cases auth with
        | none => exact Or.inl rfl
        | some a =>
          refine Or.inr ⟨a, rfl, ?_⟩
          intro heq
          subst heq
          have hne : ("Bearer " ++ t) ≠ "" := by
            intro hh
            have hlen := congrArg String.length hh
            rw [String.length_append] at hlen
            have h7 : ("Bearer " : String).length = 7 := rfl
            have h0 : ("" : String).length = 0 := rfl
            rw [h7, h0] at hlen
            omega
          simp [hne] at h

/-- C10 witness: concrete instances — a request with no configured token
and a garbage header, a configured token with a missing header, and a
configured token with a wrong header. -/
theorem C10_witness :
    jellyfin_webhook none (some "garbage") .empty = handleWebhookBody .empty ∧
    ((jellyfin_webhook (some "tok") none .empty).status = 401
       ↔ authRejects (some "tok") none = true) ∧
    (∃ t, (some "tok" : Option String) = some t ∧ t ≠ "" ∧
       ((some "bad" : Option String) = none ∨
        ∃ a, (some "bad" : Option String) = some a ∧ a ≠ "Bearer " ++ t)) :=
  ⟨C10_auth_only_when_token_configured.1 (some "garbage") .empty,
   C10_auth_only_when_token_configured.2.1 (some "tok") none .empty,
   C10_auth_only_when_token_configured.2.2 (some "tok") (some "bad") (by decide)⟩

end Unmonitarr
